import Mathlib

/-!
Verification development for the SSO session/authorization layer
(`SSO/rbac.py`, `SSO/session.py`, `SSO/auth.py`, `SSO/config.py`).

The Python modules are shallowly embedded: the session-state dictionary and
the cookie jar become explicit records threaded through the functions, and
the Streamlit rendering calls (`st.error`, `st.warning`, ...) become a list
of output events.  Library behaviour external to the repository (the `json`
codec, the MSAL token exchange, the Streamlit secrets store) is modelled by
small inductive types that capture exactly the interface the repository code
relies on.
-/

/-- JSON values, as produced by decoding an ID token or a cookie payload.
Identity claims are a JSON object, i.e. a `JVal.obj` / a list of
string-keyed fields. -/
inductive JVal : Type
  | null : JVal
  | bool (b : Bool) : JVal
  | num (n : Int) : JVal
  | str (s : String) : JVal
  | arr (xs : List JVal) : JVal
  | obj (fields : List (String × JVal)) : JVal

/-- Python truthiness of a JSON-decoded value (`if roles:` and similar
tests in the source): `None`, `False`, `0`, `""`, `[]` and `{}` are falsy. -/
def JVal.truthy : JVal → Bool
  | .null => false
  | .bool b => b
  | .num n => n != 0
  | .str s => s != ""
  | .arr xs => !xs.isEmpty
  | .obj fs => !fs.isEmpty

/-- An identity-claims mapping: the decoded `id_token_claims` dictionary. -/
def Claims : Type := List (String × JVal)

/-- Model of a cookie string value as seen through Python's `json` codec
(standard library, external to this repository).  Every string either
parses as JSON to a unique value (`jsonOf v`: some string that
`json.loads` decodes to `v`, e.g. the output of `json.dumps v`) or fails
to parse (`nonJson s`: the literal string `s`, which `json.loads`
rejects).  `json.dumps` of any value is a non-empty string, and
`json.loads (json.dumps v) = v` for JSON-decoded values `v` — both facts
of the library that the model bakes in. -/
inductive CVal : Type
  | jsonOf (v : JVal) : CVal
  | nonJson (s : String) : CVal

/-- Model of `json.dumps` on an identity-claims dictionary: the result is a
string that parses back to the same object. -/
def json_dumps (c : Claims) : CVal := CVal.jsonOf (JVal.obj c)

/-- Model of `json.loads` on a cookie string: the parsed value, or `none`
when the string is not JSON (the `json.JSONDecodeError` branch). -/
def json_loads : CVal → Option JVal
  | .jsonOf v => some v
  | .nonJson _ => none

/-- Python truthiness of the cookie string (`if ... and user_info_cookie:`):
a string is truthy iff non-empty; serialized JSON is never empty. -/
def CVal.truthy : CVal → Bool
  | .jsonOf _ => true
  | .nonJson s => s != ""

/-- `class Role(str, Enum)` from `SSO/rbac.py`: the closed application-role
enumeration. -/
inductive Role : Type
  | ADMIN : Role
  | SUPERUSER : Role
  | USER : Role
  deriving DecidableEq

/-- The `.value` of each `Role` member — the canonical role string. -/
def Role.value : Role → String
  | .ADMIN => "Admin"
  | .SUPERUSER => "Superuser"
  | .USER => "User"

/-- `class Permission(str, Enum)` from `SSO/rbac.py`. -/
inductive Permission : Type
  | VIEW_ANALYTICS : Permission
  | VIEW_SETTINGS : Permission
  | MANAGE_USERS : Permission
  | EDIT_SETTINGS : Permission
  deriving DecidableEq

/-- The `ROLE_PERMISSIONS` dictionary from `SSO/rbac.py`, total on `Role`
(so the `.get(role, [])` default is never taken). -/
def ROLE_PERMISSIONS : Role → List Permission
  | .ADMIN => [.VIEW_ANALYTICS, .VIEW_SETTINGS, .MANAGE_USERS, .EDIT_SETTINGS]
  | .SUPERUSER => [.VIEW_ANALYTICS, .VIEW_SETTINGS, .EDIT_SETTINGS]
  | .USER => [.VIEW_ANALYTICS]

/-- The `Role(role_str)` enum constructor applied to a string: succeeds
exactly on the canonical value of a member (case-sensitive), raises
`ValueError` (here: `none`) otherwise. -/
def roleOfString (s : String) : Option Role :=
  if s = ("Admin") then some Role.ADMIN
  else if s = ("Superuser") then some Role.SUPERUSER
  else if s = ("User") then some Role.USER
  else none

/-- `get_user_roles` from `SSO/rbac.py`, parameterized by the `user_info`
claims dictionary it reads from the session state: looks up the `roles`
claim (default `[]`), and if the value is not a list, wraps it — Python's
`roles = [roles] if roles else []`. -/
def get_user_roles (user_info : Claims) : List JVal :=
  let roles := ((user_info.find? (fun kv => kv.fst = ("roles"))).map Prod.snd).getD (JVal.arr [])
  match roles with
  | .arr xs => xs
  | v => if v.truthy then [v] else []

/-- `get_highest_role` from `SSO/rbac.py`, parameterized by the extracted
role strings: `Role.ADMIN in user_roles` is elementwise string equality
because `Role` is a `str` enum. -/
def get_highest_role (user_roles : List String) : Option Role :=
  if user_roles.contains ("Admin") then some Role.ADMIN
  else if user_roles.contains ("Superuser") then some Role.SUPERUSER
  else if user_roles.contains ("User") then some Role.USER
  else none

/-- `has_any_role` from `SSO/rbac.py`, parameterized by the user's role
strings: `any(role in user_roles for role in required_roles)`. -/
def has_any_role (required_roles : List Role) (user_roles : List String) : Bool :=
  required_roles.any (fun role => user_roles.contains role.value)

/-- `has_permission` from `SSO/rbac.py`, parameterized by the user's role
strings: for each role string, try the `Role` constructor; on
`ValueError` log and continue; otherwise test membership in
`ROLE_PERMISSIONS`. -/
def has_permission (user_roles : List String) (permission : Permission) : Bool :=
  user_roles.any (fun role_str =>
    match roleOfString role_str with
    | some role => (ROLE_PERMISSIONS role).contains permission
    | none => false)

/-- The Streamlit `st.session_state` fields touched by the session/auth
modules.  Each field that the code may find absent (`"x" not in
st.session_state`) is an `Option` whose `none` means "key absent";
`user_info` is doubly optional because Python distinguishes the key being
absent from it holding `None`.  `cookies_cleaned` models
`hasattr(st.session_state, '_cookies_cleaned')`. -/
structure PySession : Type where
  authenticated : Option Bool
  user_info : Option (Option JVal)
  auth_code_processed : Option Bool
  cookies_cleaned : Bool

/-- A brand-new visitor context: no session keys set yet. -/
def freshSession : PySession :=
  { authenticated := none, user_info := none, auth_code_processed := none,
    cookies_cleaned := false }

/-- The visitor's cookie jar as the session/auth modules see it: the two
persisted authentication entries, plus whatever other cookies exist
(relevant only to the `session_*` cleanup sweep and the `if cookies:`
non-emptiness test). -/
structure Cookies : Type where
  authenticated : Option String
  user_info : Option CVal
  others : List (String × String)

/-- Python truthiness of the `getAll()` dictionary (`if ... and cookies:`). -/
def Cookies.nonempty (ck : Cookies) : Bool :=
  ck.authenticated.isSome || ck.user_info.isSome || !ck.others.isEmpty

/-- `init_session_state` from `SSO/session.py`: sweep old `session_*`
cookies once, fill in session-state defaults, then try to restore
authentication from the persisted cookies.  The `except (JSONDecodeError,
TypeError)` branch resets the session to anonymous and purges both
persisted entries. -/
def init_session_state (s : PySession) (ck : Cookies) : PySession × Cookies :=
  let s0 : PySession :=
    if s.cookies_cleaned then s else { s with cookies_cleaned := true }
  let ck0 : Cookies :=
    if s.cookies_cleaned then ck else
      { ck with others := ck.others.filter (fun kv => !(kv.fst.startsWith ("session_"))) }
  let s1 : PySession :=
    { s0 with
      authenticated := some (s0.authenticated.getD false)
      user_info := some (s0.user_info.getD none)
      auth_code_processed := some (s0.auth_code_processed.getD false) }
  if s1.authenticated = some false && Cookies.nonempty ck0 then
    match ck0.authenticated, ck0.user_info with
    | some auth_cookie, some user_info_cookie =>
      if auth_cookie = ("true") && user_info_cookie.truthy then
        match json_loads user_info_cookie with
        | some v =>
          ({ s1 with authenticated := some true, user_info := some (some v) }, ck0)
        | none =>
          ({ s1 with authenticated := some false, user_info := some none },
           { ck0 with authenticated := none, user_info := none })
      else (s1, ck0)
    | _, _ => (s1, ck0)
  else (s1, ck0)

/-- A Streamlit rendering call made by the auth/guard code. -/
inductive Output : Type
  | markdown (s : String) : Output
  | error (s : String) : Output
  | warning (s : String) : Output
  | info (s : String) : Output
  | divider : Output
  | caption (s : String) : Output
  deriving DecidableEq

/-- Outcome of `msal_app.acquire_token_by_authorization_code` as
`handle_auth_callback` observes it (the MSAL library is external):
a result dictionary containing an `access_token` together with its
`id_token_claims` (default `{}`), a result dictionary without an access
token carrying `error`/`error_description`, or a raised exception. -/
inductive ExchangeOutcome : Type
  | success (id_token_claims : Claims) : ExchangeOutcome
  | noToken (error errorDescription : String) : ExchangeOutcome
  | raised (message : String) : ExchangeOutcome

/-- What `handle_auth_callback` leaves behind: its boolean return value,
the session state, the cookie jar, and the rendering calls it made. -/
structure CallbackResult : Type where
  ret : Bool
  session : PySession
  cookies : Cookies
  outputs : List Output

/-- `handle_auth_callback` from `SSO/auth.py`, parameterized by the
exchange outcome.  On success it marks the session authenticated, stores
the claims, and writes both persisted cookies (`commit_login` in the
design; the cookie-controller write is modelled as succeeding).  On a
tokenless result or an exception it logs, shows a generic error, and
returns `False` without touching session or cookies. -/
def handle_auth_callback (outcome : ExchangeOutcome) (s : PySession) (ck : Cookies) :
    CallbackResult :=
  match outcome with
  | .success claims =>
    { ret := true
      session := { s with authenticated := some true, user_info := some (some (JVal.obj claims)) }
      cookies := { ck with authenticated := some ("true"), user_info := some (json_dumps claims) }
      outputs := [] }
  | .noToken _ _ =>
    { ret := false, session := s, cookies := ck
      outputs := [Output.error ("Authentication failed. Please try again or contact support.")] }
  | .raised _ =>
    { ret := false, session := s, cookies := ck
      outputs := [Output.error ("An error occurred during authentication. Please try again later.")] }

/-- The `st.markdown` CSS block that hides the sidebar entries on denial
pages (braces written as escapes). -/
def hide_sidebar_css : String :=
  "\n        <style>\n            [data-testid=\"stSidebarNav\"] li:nth-child(n+2) \x7b\n                display: none;\n            \x7d\n        </style>\n    "

/-- `_show_auth_error` from `SSO/rbac.py` as its list of rendering calls. -/
def show_auth_error : List Output :=
  [Output.markdown hide_sidebar_css,
   Output.error ("⚠️ You must be logged in to access this page."),
   Output.info ("👈 Please log in using the **Home** page from the sidebar.")]

/-- `_show_permission_error` from `SSO/rbac.py` as its list of rendering
calls, parameterized by the required roles and the user's role strings. -/
def show_permission_error (required_roles : List Role) (user_roles : List String) :
    List Output :=
  let role_names := String.intercalate (" or ") (required_roles.map Role.value)
  [Output.markdown hide_sidebar_css,
   Output.error ("🚫 Access Denied"),
   Output.warning ("This page requires **" ++ role_names ++ "** role.")]
  ++ (if !user_roles.isEmpty then
        [Output.info ("Your current role(s): **" ++ String.intercalate (", ") user_roles ++ "**")]
      else
        [Output.info ("You have no roles assigned. Contact your administrator.")])
  ++ [Output.divider,
      Output.caption ("💡 If you believe this is an error, please contact your system administrator.")]

/-- The wrapper produced by the `require_role` decorator from
`SSO/rbac.py`, parameterized by the session's authenticated flag and role
strings; the page body is its list of rendering calls, and `st.stop()`
is modelled by returning the denial output without the body. -/
def require_role (required_roles : List Role) (authenticated : Bool)
    (user_roles : List String) (pageBody : List Output) : List Output :=
  if !authenticated then show_auth_error
  else if !has_any_role required_roles user_roles then
    show_permission_error required_roles user_roles
  else pageBody

/-- Python truthiness of an optional configuration string
(`if not CLIENT_ID:`): `None` and `""` are falsy. -/
def truthyOpt : Option String → Bool
  | none => false
  | some s => s != ""

/-- Result of the `st.secrets.get(key, default)` lookup inside
`_get_config` (the secrets store is external): a stored string, key
absent (the passed default is returned), or a raised
`AttributeError`/`FileNotFoundError`. -/
inductive SecretsLookup : Type
  | found (s : String) : SecretsLookup
  | absent : SecretsLookup
  | raises : SecretsLookup

/-- `_get_config` from `SSO/config.py`, parameterized by the environment
value `os.getenv(key)`, whether Streamlit imported, and the secrets
lookup outcome: environment first, secrets only when the environment
returned `None`, and finally `value if value else default`. -/
def _get_config (env : Option String) (streamlit_available : Bool)
    (secrets : SecretsLookup) (default : Option String) : Option String :=
  let value : Option String :=
    match env with
    | some v => some v
    | none =>
      if streamlit_available then
        match secrets with
        | .found s => some s
        | .absent => default
        | .raises => default
      else none
  if truthyOpt value then value else default

/-- `validate_config` from `SSO/config.py`, parameterized by the three
resolved credentials it reads from module constants. -/
def validate_config (client_id client_secret tenant_id : Option String) :
    Bool × List String :=
  let missing_vars : List String :=
    (if !truthyOpt client_id then [("AZURE_CLIENT_ID")] else [])
    ++ (if !truthyOpt client_secret then [("AZURE_CLIENT_SECRET")] else [])
    ++ (if !truthyOpt tenant_id then [("AZURE_TENANT_ID")] else [])
  if !missing_vars.isEmpty then (false, missing_vars) else (true, [])

/-- The claim's reading of the role-permission table: a role string grants a
permission exactly when it is the canonical spelling of a role whose fixed
row contains the permission (Admin: all four; Superuser: ViewAnalytics,
ViewSettings, EditSettings; User: ViewAnalytics only). -/
def specGrants (r : String) (p : Permission) : Prop :=
  (r = "Admin" ∧ (p = Permission.VIEW_ANALYTICS ∨ p = Permission.VIEW_SETTINGS
      ∨ p = Permission.MANAGE_USERS ∨ p = Permission.EDIT_SETTINGS))
  ∨ (r = "Superuser" ∧ (p = Permission.VIEW_ANALYTICS ∨ p = Permission.VIEW_SETTINGS
      ∨ p = Permission.EDIT_SETTINGS))
  ∨ (r = "User" ∧ p = Permission.VIEW_ANALYTICS)

instance (r : String) (p : Permission) : Decidable (specGrants r p) := by
  unfold specGrants
  infer_instance

theorem grants_pointwise (r : String) (p : Permission) :
    (match roleOfString r with
      | some role => (ROLE_PERMISSIONS role).contains p
      | none => false) = true ↔ specGrants r p := by
  unfold roleOfString specGrants
  split_ifs with h1 h2 h3
  · subst h1; cases p <;> decide
  · subst h2; cases p <;> simp_all <;> decide
  · subst h3; cases p <;> simp_all <;> decide
  · simp [h1, h2, h3]

/-- C1: for every sequence of role strings R and every permission p,
`has_permission R p` is true if and only if at least one element of R
equals the canonical spelling of a role whose row in the fixed
role-permission table contains p; unrecognized role strings are skipped
and never cause an error or a true result. -/
theorem C1_has_permission_table (R : List String) (p : Permission) :
    has_permission R p = true ↔ ∃ r ∈ R, specGrants r p := by
  unfold has_permission
  rw [List.any_eq_true]
  constructor
  · rintro ⟨r, hr, hg⟩
    exact ⟨r, hr, (grants_pointwise r p).mp hg⟩
  · rintro ⟨r, hr, hg⟩
    exact ⟨r, hr, (grants_pointwise r p).mpr hg⟩

theorem C1_has_permission_table_witness :
    ∃ r ∈ [("User")], specGrants r Permission.VIEW_ANALYTICS :=
  (C1_has_permission_table [("User")] Permission.VIEW_ANALYTICS).mp rfl

/-- C9: `has_permission` is monotone in the role sequence — inserting one
more role string at any position preserves a true result. -/
theorem C9_has_permission_monotone (l1 l2 : List String) (r : String) (p : Permission)
    (h : has_permission (l1 ++ l2) p = true) :
    has_permission (l1 ++ r :: l2) p = true := by
  simp only [has_permission, List.any_append, List.any_cons, Bool.or_eq_true] at h ⊢
  rcases h with h | h
  · exact Or.inl h
  · exact Or.inr (Or.inr h)

theorem C9_has_permission_monotone_witness :
    has_permission ([("User")] ++ [("x")]) Permission.VIEW_ANALYTICS = true
    ∧ has_permission ([("User")] ++ ("Admin") :: [("x")]) Permission.VIEW_ANALYTICS = true :=
  ⟨rfl, C9_has_permission_monotone [("User")] [("x")] ("Admin") Permission.VIEW_ANALYTICS rfl⟩

/-- C4 counterexample: the claim says a single scalar `roles` value —
including falsy scalars such as the empty string — is wrapped in a
one-element sequence, but `roles = [roles] if roles else []` maps the
empty-string scalar to the empty sequence. -/
theorem C4_extract_roles_counterexample :
    get_user_roles [(("roles"), JVal.str (""))] = []
    ∧ get_user_roles [(("roles"), JVal.str (""))] ≠ [JVal.str ("")] := by
  constructor
  · rfl
  · intro h
    have h0 : get_user_roles [(("roles"), JVal.str (""))] = [] := rfl
    rw [h0] at h
    exact List.noConfusion h

/-- C4 (amended): `get_user_roles` returns the empty sequence when the
`roles` field is absent; the sequence itself, unchanged, when the field is
already a sequence; a one-element sequence wrapping the value when the
field is a truthy scalar; and the empty sequence when the field is a
falsy scalar (such as the empty string). -/
theorem C4_extract_roles_cases (ui : Claims) :
    ((ui.find? (fun kv => kv.fst = ("roles"))) = none → get_user_roles ui = [])
    ∧ (∀ xs, (ui.find? (fun kv => kv.fst = ("roles"))).map Prod.snd = some (JVal.arr xs) →
        get_user_roles ui = xs)
    ∧ (∀ v, (ui.find? (fun kv => kv.fst = ("roles"))).map Prod.snd = some v →
        (∀ xs, v ≠ JVal.arr xs) → v.truthy = true → get_user_roles ui = [v])
    ∧ (∀ v, (ui.find? (fun kv => kv.fst = ("roles"))).map Prod.snd = some v →
        (∀ xs, v ≠ JVal.arr xs) → v.truthy = false → get_user_roles ui = []) := by
  refine ⟨?_, ?_, ?_, ?_⟩
  · intro h
    simp [get_user_roles, h]
  · intro xs h
    simp only [get_user_roles, h, Option.getD_some]
  · intro v h hna ht
    simp only [get_user_roles, h, Option.getD_some]
    cases v with
    | arr xs => exact absurd rfl (hna xs)
    | null => simp [JVal.truthy] at ht
    | bool b => simp [ht]
    | num n => simp [ht]
    | str s => simp [ht]
    | obj fs => simp [ht]
  · intro v h hna ht
    simp only [get_user_roles, h, Option.getD_some]
    cases v with
    | arr xs => exact absurd rfl (hna xs)
    | null => simp [JVal.truthy]
    | bool b => simp [ht]
    | num n => simp [ht]
    | str s => simp [ht]
    | obj fs => simp [ht]

theorem C4_extract_roles_cases_witness :
    get_user_roles [(("roles"), JVal.arr [JVal.str ("A"), JVal.str ("B")])]
      = [JVal.str ("A"), JVal.str ("B")]
    ∧ get_user_roles [(("roles"), JVal.str ("Admin"))] = [JVal.str ("Admin")] :=
  ⟨(C4_extract_roles_cases [(("roles"), JVal.arr [JVal.str ("A"), JVal.str ("B")])]).2.1
      [JVal.str ("A"), JVal.str ("B")] rfl,
   (C4_extract_roles_cases [(("roles"), JVal.str ("Admin"))]).2.2.1
      (JVal.str ("Admin")) rfl (fun _ h => JVal.noConfusion h) rfl⟩

/-- C5: `get_highest_role` returns Admin whenever the string Admin occurs
anywhere in the sequence; otherwise Superuser if it occurs; otherwise
User if it occurs; and none exactly when no recognized role string is
present (in particular for the empty sequence). -/
theorem C5_highest_role (R : List String) :
    (get_highest_role R = some Role.ADMIN ↔ ("Admin") ∈ R)
    ∧ (get_highest_role R = some Role.SUPERUSER ↔ ("Admin") ∉ R ∧ ("Superuser") ∈ R)
    ∧ (get_highest_role R = some Role.USER ↔
        ("Admin") ∉ R ∧ ("Superuser") ∉ R ∧ ("User") ∈ R)
    ∧ (get_highest_role R = none ↔
        ("Admin") ∉ R ∧ ("Superuser") ∉ R ∧ ("User") ∉ R)
    ∧ get_highest_role [] = none := by
  by_cases hA : ("Admin") ∈ R <;> by_cases hS : ("Superuser") ∈ R <;>
    by_cases hU : ("User") ∈ R <;>
    simp [get_highest_role, hA, hS, hU, List.elem_iff]

theorem C5_highest_role_witness :
    get_highest_role [("x"), ("User"), ("Admin")] = some Role.ADMIN :=
  (C5_highest_role [("x"), ("User"), ("Admin")]).1.mpr (by decide)

/-- C6: `require_role` with required role Admin, on an authenticated
session whose roles are exactly the one string User, never invokes the
page body (the rendered output is the denial view, independent of the
body), and the denial names Admin as the required role and User as the
current role. -/
theorem C6_require_role_denial (pageBody : List Output) :
    require_role [Role.ADMIN] true [("User")] pageBody
      = show_permission_error [Role.ADMIN] [("User")]
    ∧ Output.warning ("This page requires **Admin** role.")
        ∈ require_role [Role.ADMIN] true [("User")] pageBody
    ∧ Output.info ("Your current role(s): **User**")
        ∈ require_role [Role.ADMIN] true [("User")] pageBody := by
  have h0 : require_role [Role.ADMIN] true [("User")] pageBody
      = show_permission_error [Role.ADMIN] [("User")] := rfl
  refine ⟨h0, ?_, ?_⟩ <;> rw [h0] <;> decide

/-- C7: when the token exchange yields no access token or raises,
`handle_auth_callback` returns false, leaves the session state exactly as
it was, and writes no persisted cookie entry. -/
theorem C7_failed_exchange_preserves_state (e d m : String) (s : PySession) (ck : Cookies) :
    (handle_auth_callback (ExchangeOutcome.noToken e d) s ck).ret = false
    ∧ (handle_auth_callback (ExchangeOutcome.noToken e d) s ck).session = s
    ∧ (handle_auth_callback (ExchangeOutcome.noToken e d) s ck).cookies = ck
    ∧ (handle_auth_callback (ExchangeOutcome.raised m) s ck).ret = false
    ∧ (handle_auth_callback (ExchangeOutcome.raised m) s ck).session = s
    ∧ (handle_auth_callback (ExchangeOutcome.raised m) s ck).cookies = ck :=
  ⟨rfl, rfl, rfl, rfl, rfl, rfl⟩

/-- C8: `validate_config` reports, in the fixed order AZURE_CLIENT_ID,
AZURE_CLIENT_SECRET, AZURE_TENANT_ID, exactly the required credentials
that are absent; ok holds iff nothing is missing; the redirect URI is
never reported (the function is total, so it never raises). -/
theorem C8_validate_config (ci cs ti : Option String) :
    ((validate_config ci cs ti).fst = true ↔ (validate_config ci cs ti).snd = [])
    ∧ (validate_config ci cs ti).snd.Sublist
        [("AZURE_CLIENT_ID"), ("AZURE_CLIENT_SECRET"), ("AZURE_TENANT_ID")]
    ∧ (("AZURE_CLIENT_ID") ∈ (validate_config ci cs ti).snd ↔ truthyOpt ci = false)
    ∧ (("AZURE_CLIENT_SECRET") ∈ (validate_config ci cs ti).snd ↔ truthyOpt cs = false)
    ∧ (("AZURE_TENANT_ID") ∈ (validate_config ci cs ti).snd ↔ truthyOpt ti = false)
    ∧ ("REDIRECT_URI") ∉ (validate_config ci cs ti).snd := by
  cases hci : truthyOpt ci <;> cases hcs : truthyOpt cs <;> cases hti : truthyOpt ti <;>
    simp [validate_config, hci, hcs, hti]

theorem C8_validate_config_witness :
    ("AZURE_CLIENT_ID") ∈ (validate_config none (some ("x")) (some ("y"))).snd :=
  (C8_validate_config none (some ("x")) (some ("y"))).2.2.1.mpr rfl

/-- C2: a successful `handle_auth_callback` with identity claims C (which
writes both persisted cookies), followed by `init_session_state` on a
fresh, unauthenticated session, yields a session whose authenticated flag
is true and whose stored claims are deep-equal to C. -/
theorem C2_commit_restore_roundtrip (C : Claims) (s0 : PySession) (ck0 : Cookies) :
    (init_session_state freshSession
        (handle_auth_callback (ExchangeOutcome.success C) s0 ck0).cookies).fst.authenticated
      = some true
    ∧ (init_session_state freshSession
        (handle_auth_callback (ExchangeOutcome.success C) s0 ck0).cookies).fst.user_info
      = some (some (JVal.obj C)) :=
  ⟨rfl, rfl⟩

/-- C3 counterexample: with the authenticated cookie set to the string true
and the user_info cookie present as the empty string — which does not
parse as JSON — `init_session_state` leaves both persisted entries in
place (the empty string fails the truthiness test before parsing), while
the claim says both entries are removed. -/
theorem C3_corrupt_cookie_counterexample :
    json_loads (CVal.nonJson ("")) = none
    ∧ (init_session_state freshSession
        (Cookies.mk (some ("true")) (some (CVal.nonJson (""))) [])).snd.authenticated
      = some ("true")
    ∧ (init_session_state freshSession
        (Cookies.mk (some ("true")) (some (CVal.nonJson (""))) [])).snd.user_info
      = some (CVal.nonJson ("")) :=
  ⟨rfl, rfl, rfl⟩

/-- C3 (amended): with the authenticated cookie equal to the string true
and a present user_info cookie that does not parse as JSON,
`init_session_state` on an unauthenticated session leaves the session
anonymous (authenticated false, claims absent) and, when the unparsable
value is non-empty, removes both persisted entries; an empty user_info
value is skipped by the truthiness test before parsing, leaving both
persisted entries unchanged (the session still anonymous).  In neither
case is authenticated left true without parsed claims. -/
theorem C3_corrupt_cookie_fail_closed (s : PySession) (ck : Cookies) (u : CVal)
    (hs : s.authenticated = none ∨ s.authenticated = some false)
    (hui : s.user_info = none ∨ s.user_info = some none)
    (hca : ck.authenticated = some ("true"))
    (hcu : ck.user_info = some u)
    (hl : json_loads u = none) :
    ((init_session_state s ck).fst.authenticated = some false
      ∧ (init_session_state s ck).fst.user_info = some none)
    ∧ (u.truthy = true →
        (init_session_state s ck).snd.authenticated = none
        ∧ (init_session_state s ck).snd.user_info = none)
    ∧ (u.truthy = false →
        (init_session_state s ck).snd.authenticated = some ("true")
        ∧ (init_session_state s ck).snd.user_info = some u) := by
  cases u with
  | jsonOf v => simp [json_loads] at hl
  | nonJson str =>
    rcases hs with hs | hs <;> rcases hui with hui | hui <;>
      cases hcl : s.cookies_cleaned <;>
      by_cases ht : str = ("") <;>
      simp [init_session_state, hca, hcu, hs, hui, hcl, ht, CVal.truthy,
        json_loads, Cookies.nonempty]

theorem C3_corrupt_cookie_fail_closed_witness :
    ((init_session_state freshSession
        (Cookies.mk (some ("true")) (some (CVal.nonJson ("xx"))) [])).fst.authenticated
      = some false)
    ∧ ((init_session_state freshSession
        (Cookies.mk (some ("true")) (some (CVal.nonJson ("xx"))) [])).snd.authenticated
      = none) :=
  ⟨(C3_corrupt_cookie_fail_closed freshSession
      (Cookies.mk (some ("true")) (some (CVal.nonJson ("xx"))) []) (CVal.nonJson ("xx"))
      (Or.inl rfl) (Or.inl rfl) rfl rfl rfl).1.1,
   ((C3_corrupt_cookie_fail_closed freshSession
      (Cookies.mk (some ("true")) (some (CVal.nonJson ("xx"))) []) (CVal.nonJson ("xx"))
      (Or.inl rfl) (Or.inl rfl) rfl rfl rfl).2.1 rfl).1⟩

/-- C10 counterexample: an environment value equal to the empty string is
not resolved exactly as if the variable were unset — the empty string
suppresses the secrets fallback, so with a secret configured the two
situations resolve differently. -/
theorem C10_empty_env_counterexample :
    _get_config (some ("")) true (SecretsLookup.found ("X")) none = none
    ∧ _get_config none true (SecretsLookup.found ("X")) none = some ("X")
    ∧ (none : Option String) ≠ some ("X") := by
  refine ⟨rfl, rfl, ?_⟩
  intro h
  exact Option.noConfusion h

/-- C10 (amended): for a required credential (default none), an environment
or secret value equal to the empty string is resolved to none by
`_get_config` — as is a genuinely unset variable — and the credential is
then reported as missing by `validate_config`; however an empty
environment value is not in every respect equivalent to an unset one,
since it also suppresses the secrets fallback. -/
theorem C10_empty_config_missing (sa : Bool) (sl : SecretsLookup) (cs ti : Option String) :
    _get_config (some ("")) sa sl none = none
    ∧ _get_config none true (SecretsLookup.found ("")) none = none
    ∧ _get_config none sa SecretsLookup.absent none = none
    ∧ ("AZURE_CLIENT_ID") ∈ (validate_config (_get_config (some ("")) sa sl none) cs ti).snd := by
  refine ⟨rfl, rfl, ?_, ?_⟩
  · cases sa <;> rfl
  · have h0 : _get_config (some ("")) sa sl none = none := rfl
    rw [h0]
    cases hcs : truthyOpt cs <;> cases hti : truthyOpt ti <;>
      simp [validate_config, hcs, hti, truthyOpt]
